import Mathlib

/-!
Shallow embedding of the analytics and classification core of the
inverse-ETF options dashboard (src/calculations/options_analytics.py,
src/calculations/technicals.py, src/calculations/traffic_lights.py,
src/data/greeks.py), together with theorems checking the behavioural
claims of the specification against it.

Python floats are modelled by exact rationals; the float special values
(infinity, NaN) that the RSI computation can produce are modelled by an
explicit extended type `EFloat`.  Python `round` and `numpy.round` use
round-half-to-even, modelled exactly by `rhe`.
-/

namespace InvEtf

/-- Round a rational to the nearest integer, ties to even: the behaviour
of Python `round` and `numpy.round` on exact decimal values. -/
def rhe (q : ℚ) : ℤ :=
  let f : ℤ := ⌊q⌋
  let r : ℚ := q - f
  if r < 1/2 then f
  else if 1/2 < r then f + 1
  else if f % 2 = 0 then f else f + 1

/-- Python `round(q, n)` on exact decimals. -/
def round_to (n : ℕ) (q : ℚ) : ℚ := (rhe (q * 10 ^ n) : ℚ) / 10 ^ n

/-- Python `round(q, 2)`. -/
def round2 (q : ℚ) : ℚ := round_to 2 q

/-- Python `round(q, 4)`. -/
def round4 (q : ℚ) : ℚ := round_to 4 q

/-- Python `round(q, 6)`. -/
def round6 (q : ℚ) : ℚ := round_to 6 q

/-- Traffic-light color (the strings "green"/"yellow"/"red" of the source). -/
inductive Color where
  | green
  | yellow
  | red
deriving DecidableEq

/-- Option type: the source compares `row["type"] == "call"` and treats
everything else as a put, so the type is binary. -/
inductive OptType where
  | call
  | put
deriving DecidableEq

/-- Selected strategy: the source compares `strategy == "short_calls"` and
treats everything else as cash-secured puts. -/
inductive Strategy where
  | short_calls
  | cash_secured_puts
deriving DecidableEq

/-- Configuration snapshot, with the defaults the source supplies through
`config.get(..., default)`. -/
structure Config where
  annualized_return_target : ℚ := 30
  short_calls_band : ℚ × ℚ := (1/10, 1/2)
  short_calls_focus : ℚ × ℚ := (1/5, 3/10)
  short_puts_band : ℚ × ℚ := (-(1/2), -(1/10))
  short_puts_focus : ℚ × ℚ := (-(3/10), -(1/5))
  min_oi : ℚ := 200
  min_volume : ℚ := 20
  marginal_oi : ℚ := 50
  overbought : ℚ := 70
  oversold : ℚ := 30
  neutral_low : ℚ := 40
  neutral_high : ℚ := 60
  etfs : List String := []
deriving DecidableEq

/-- One option-chain row.  The base columns come from the provider; the
enriched columns (mid, ann_return and the five flags) are overwritten by
`enrich_chain` and default to zero/false on a raw row. -/
structure OptRow where
  type : OptType
  strike : ℚ := 0
  bid : ℚ := 0
  ask : ℚ := 0
  dte : ℚ := 0
  delta : Option ℚ := none
  openInterest : ℚ := 0
  volume : ℚ := 0
  mid : ℚ := 0
  ann_return : ℚ := 0
  return_ok : Bool := false
  delta_ok : Bool := false
  delta_in_focus : Bool := false
  liquidity_ok : Bool := false
  liquidity_marginal : Bool := false
deriving DecidableEq

/-- options_analytics.annualized_return: 0.0 on any non-positive input,
else `(premium / underlying_price) * (365 / dte) * 100` rounded to 2
decimals.  `dte` is an integer in the source signature; rationals subsume
that domain. -/
def annualized_return (premium underlying_price dte : ℚ) : ℚ :=
  if underlying_price ≤ 0 ∨ dte ≤ 0 ∨ premium ≤ 0 then 0
  else round2 ((premium / underlying_price) * (365 / dte) * 100)

/-- P/L at expiry of a short option at one underlying price (the loop body
of options_analytics.compute_payoff_table). -/
def short_pnl (option_type : OptType) (strike premium price : ℚ) : ℚ :=
  match option_type with
  | .call => premium - max 0 (price - strike)
  | .put => premium - max 0 (strike - price)

/-- The i-th of `n` numpy.linspace samples from `low` to `high`:
`low + i * (high - low) / (n - 1)`.  For `n = 1` the rational division by
zero is 0, so the single sample sits at `low`, as numpy returns. -/
def linspace_point (low high : ℚ) (n : ℕ) (i : ℕ) : ℚ :=
  low + (i : ℚ) * (high - low) / ((n : ℚ) - 1)

/-- options_analytics.compute_payoff_table: `num_points` prices evenly
spaced (numpy.linspace) over `[0.70 * S, 1.30 * S]`, each row holding the
2-decimal roundings of price and P/L; plus the rounded breakeven. -/
def compute_payoff_table (option_type : OptType) (strike premium underlying_price : ℚ)
    (num_points : ℕ) : List (ℚ × ℚ) × ℚ :=
  let price_low := underlying_price * (7/10)
  let price_high := underlying_price * (13/10)
  let prices := (List.range num_points).map (linspace_point price_low price_high num_points)
  let rows := prices.map
    (fun p => (round2 p, round2 (short_pnl option_type strike premium p)))
  let breakeven :=
    match option_type with
    | .call => strike + premium
    | .put => strike - premium
  (rows, round2 breakeven)

/-- The delta-band check of options_analytics.enrich_chain: a missing
(None/NaN) delta fails the band. -/
def check_delta_ok (cfg : Config) (r : OptRow) : Bool :=
  match r.delta with
  | none => false
  | some d =>
    match r.type with
    | .call => decide (cfg.short_calls_band.1 ≤ d ∧ d ≤ cfg.short_calls_band.2)
    | .put => decide (cfg.short_puts_band.1 ≤ d ∧ d ≤ cfg.short_puts_band.2)

/-- The focus-band check of options_analytics.enrich_chain. -/
def check_delta_focus (cfg : Config) (r : OptRow) : Bool :=
  match r.delta with
  | none => false
  | some d =>
    match r.type with
    | .call => decide (cfg.short_calls_focus.1 ≤ d ∧ d ≤ cfg.short_calls_focus.2)
    | .put => decide (cfg.short_puts_focus.1 ≤ d ∧ d ≤ cfg.short_puts_focus.2)

/-- Per-row body of options_analytics.enrich_chain: recomputes mid,
ann_return and the five flags from the base columns. -/
def enrich (cfg : Config) (underlying_price : ℚ) (r : OptRow) : OptRow :=
  let mid := round4 ((r.bid + r.ask) / 2)
  let ar := annualized_return mid underlying_price r.dte
  { r with
    mid := mid
    ann_return := ar
    return_ok := decide (cfg.annualized_return_target ≤ ar)
    delta_ok := check_delta_ok cfg r
    delta_in_focus := check_delta_focus cfg r
    liquidity_ok := decide (cfg.min_oi ≤ r.openInterest) && decide (cfg.min_volume ≤ r.volume)
    liquidity_marginal :=
      (decide (r.openInterest < cfg.min_oi) && decide (cfg.marginal_oi ≤ r.openInterest))
        || (decide (r.volume < cfg.min_volume) && decide (0 < r.volume)) }

/-- options_analytics.enrich_chain: empty chains pass through untouched,
otherwise every row is enriched. -/
def enrich_chain (chain : List OptRow) (underlying_price : ℚ) (cfg : Config) : List OptRow :=
  if chain.isEmpty then chain
  else chain.map (enrich cfg underlying_price)

/-- One marginal issue the yellow branch of the per-option classifier can
list in its tooltip. -/
inductive Issue where
  | liq_marginal
  | vix_yellow
  | vix_red
  | index_is (c : Color)
deriving DecidableEq

/-- The tooltip of a per-option classification, one constructor per format
string of traffic_lights.option_traffic_light (`marginal []` stands for
the "Near threshold" fallback tooltip). -/
inductive TLReason where
  | return_below_target
  | delta_outside_band
  | very_low_liquidity
  | high_risk_env
  | all_pass
  | marginal (issues : List Issue)
deriving DecidableEq

/-- Result of the per-option classifier: a color and a tooltip. -/
structure TLight where
  color : Color
  reason : TLReason
deriving DecidableEq

/-- traffic_lights.option_traffic_light: the ordered priority cascade over
the enriched row flags, the VIX color and the applicable index color. -/
def option_traffic_light (row : OptRow) (vix_color index_color : Color)
    (cfg : Config) : TLight :=
  if row.return_ok = false then ⟨.red, .return_below_target⟩
  else if row.delta_ok = false then ⟨.red, .delta_outside_band⟩
  else if row.openInterest < cfg.marginal_oi ∨ row.volume = 0 then
    ⟨.red, .very_low_liquidity⟩
  else if vix_color = .red ∧ index_color = .red then ⟨.red, .high_risk_env⟩
  else if row.return_ok = true ∧ row.delta_ok = true ∧ row.liquidity_ok = true
      ∧ vix_color ≠ .red ∧ (index_color = .green ∨ index_color = .yellow) then
    ⟨.green, .all_pass⟩
  else
    ⟨.yellow, .marginal
      ((if row.liquidity_ok = false then [Issue.liq_marginal] else [])
        ++ (if vix_color = .yellow then [Issue.vix_yellow] else [])
        ++ (if vix_color = .red then [Issue.vix_red] else [])
        ++ (if index_color = .yellow ∨ index_color = .red then
              [Issue.index_is index_color] else []))⟩

/-- One line of the ETF status summary. -/
structure EtfStatus where
  symbol : String
  last_price : ℚ
  green_calls : ℕ
  green_puts : ℕ
  total_green : ℕ
  status_color : Color
deriving DecidableEq

/-- Python `dict.get(k, d)` over an association list. -/
def lookupD {β : Type} (l : List (String × β)) (k : String) (d : β) : β :=
  match l.find? (fun p => p.1 == k) with
  | some p => p.2
  | none => d

/-- The row loop body of traffic_lights.etf_status_summary, threading the
(green_calls, green_puts, yellow_count) counters. -/
def tl_step (vix_color idx_color : Color) (cfg : Config)
    (c : ℕ × ℕ × ℕ) (row : OptRow) : ℕ × ℕ × ℕ :=
  let tl := option_traffic_light row vix_color idx_color cfg
  if tl.color = .green then
    if row.type = .call then (c.1 + 1, c.2.1, c.2.2)
    else (c.1, c.2.1 + 1, c.2.2)
  else if tl.color = .yellow then (c.1, c.2.1, c.2.2 + 1)
  else c

/-- traffic_lights.etf_status_summary: per configured ETF, scan every
tracked expiration chain (skipping empty ones), classify every contract,
and aggregate into a status line. -/
def etf_status_summary (chains : List (String × List (String × List OptRow)))
    (underlying_prices : List (String × ℚ))
    (vix_color sp_color ndx_color : Color)
    (_strategy : Strategy) (cfg : Config) : List EtfStatus :=
  cfg.etfs.map (fun etf =>
    let etf_chains := lookupD chains etf []
    let last_price := lookupD underlying_prices etf 0
    let idx_color := if etf = "SQQQ" then ndx_color else sp_color
    let counts := etf_chains.foldl
      (fun c ec =>
        if ec.2.isEmpty then c
        else ec.2.foldl (tl_step vix_color idx_color cfg) c)
      ((0, 0, 0) : ℕ × ℕ × ℕ)
    let green_calls := counts.1
    let green_puts := counts.2.1
    let yellow_count := counts.2.2
    let total_green := green_calls + green_puts
    let status_color :=
      if 1 ≤ total_green then Color.green
      else if 0 < yellow_count then Color.yellow
      else Color.red
    { symbol := etf
      last_price := round2 last_price
      green_calls := green_calls
      green_puts := green_puts
      total_green := total_green
      status_color := status_color })

/-- Extended float: a rational, a signed infinity, or NaN.  Models the
IEEE values a pandas float series can hold. -/
inductive EFloat where
  | fin (q : ℚ)
  | pinf
  | ninf
  | nan
deriving DecidableEq

/-- IEEE addition on the modelled values. -/
def eadd : EFloat → EFloat → EFloat
  | .fin a, .fin b => .fin (a + b)
  | .fin _, .pinf => .pinf
  | .pinf, .fin _ => .pinf
  | .fin _, .ninf => .ninf
  | .ninf, .fin _ => .ninf
  | .pinf, .pinf => .pinf
  | .ninf, .ninf => .ninf
  | _, _ => .nan

/-- IEEE subtraction on the modelled values. -/
def esub : EFloat → EFloat → EFloat
  | .fin a, .fin b => .fin (a - b)
  | .fin _, .pinf => .ninf
  | .pinf, .fin _ => .pinf
  | .fin _, .ninf => .pinf
  | .ninf, .fin _ => .ninf
  | .pinf, .ninf => .pinf
  | .ninf, .pinf => .ninf
  | _, _ => .nan

/-- IEEE division on the modelled values (pandas/numpy semantics: a
nonzero value over zero is a signed infinity, zero over zero is NaN). -/
def ediv : EFloat → EFloat → EFloat
  | .fin a, .fin b =>
    if b = 0 then (if 0 < a then .pinf else if a < 0 then .ninf else .nan)
    else .fin (a / b)
  | .fin _, .pinf => .fin 0
  | .fin _, .ninf => .fin 0
  | .pinf, .fin b => if 0 ≤ b then .pinf else .ninf
  | .ninf, .fin b => if 0 ≤ b then .ninf else .pinf
  | _, _ => .nan

/-- The gain series of technicals.compute_rsi: `delta.where(delta > 0, 0)`
with the leading NaN of `diff()` already replaced by 0 (NaN fails the
`where` condition). -/
def price_gains : List ℚ → List ℚ
  | [] => []
  | p :: tl => 0 :: List.zipWith (fun a b => if 0 < a - b then a - b else 0) tl (p :: tl)

/-- The loss series of technicals.compute_rsi. -/
def price_losses : List ℚ → List ℚ
  | [] => []
  | p :: tl => 0 :: List.zipWith (fun a b => if a - b < 0 then b - a else 0) tl (p :: tl)

/-- `ewm(alpha, adjust=False).mean()` (Wilder smoothing): y0 = x0,
y_t = (1-alpha) * y_(t-1) + alpha * x_t. -/
def ewm_vals (alpha : ℚ) : List ℚ → List ℚ
  | [] => []
  | x :: xs => List.scanl (fun y v => (1 - alpha) * y + alpha * v) x xs

/-- Final Wilder average gain (the `min_periods` mask of the source hides
early values but does not change this one). -/
def wilder_avg_gain (prices : List ℚ) (period : ℕ) : ℚ :=
  (ewm_vals (1 / (period : ℚ)) (price_gains prices)).getD (prices.length - 1) 0

/-- Final Wilder average loss. -/
def wilder_avg_loss (prices : List ℚ) (period : ℕ) : ℚ :=
  (ewm_vals (1 / (period : ℚ)) (price_losses prices)).getD (prices.length - 1) 0

/-- technicals.compute_rsi: the RSI series.  Entries before `period`
observations are NaN (the `min_periods` mask); afterwards
`100 - 100 / (1 + avg_gain / avg_loss)` in float semantics, so a zero
average loss saturates to 100 (positive gain) or propagates NaN (both
averages zero). -/
def compute_rsi (prices : List ℚ) (period : ℕ) : List EFloat :=
  let ag := ewm_vals (1 / (period : ℚ)) (price_gains prices)
  let al := ewm_vals (1 / (period : ℚ)) (price_losses prices)
  (List.range prices.length).map (fun t =>
    if t + 1 < period then .nan
    else
      let rs := ediv (.fin (ag.getD t 0)) (.fin (al.getD t 0))
      esub (.fin 100) (ediv (.fin 100) (eadd (.fin 1) rs)))

/-- Last value of technicals.compute_sma (`rolling(window,
min_periods=window).mean()`): defined only once `window` observations
exist, and then the mean of the trailing `window` closes. -/
def compute_sma_last (prices : List ℚ) (window : ℕ) : Option ℚ :=
  if window ≤ prices.length ∧ 0 < window then
    some ((prices.drop (prices.length - window)).sum / (window : ℚ))
  else none

/-- The TechnicalSnapshot dict built by technicals.get_index_technicals. -/
structure Technicals where
  price : ℚ
  sma20 : ℚ
  sma50 : ℚ
  sma100 : ℚ
  rsi14 : ℚ
  above_sma20 : Bool
  above_sma50 : Bool
  above_sma100 : Bool
  below_sma20 : Bool
  below_sma50 : Bool
  below_sma100 : Bool
  rsi_label : String
deriving DecidableEq

/-- technicals.get_index_technicals over the Close column.  An undefined
(NaN) latest SMA becomes 0 and a NaN latest RSI becomes 50; the stored
values are rounded to 2 decimals but the flags and the label compare the
unrounded values, as the source does.  (A latest RSI of (plus or minus)
infinity would pass the notna check in the source; the RSI formula never
produces one, so the NaN fallback is the only reachable non-finite case.) -/
def get_index_technicals (closes : List ℚ) : Technicals :=
  if closes.isEmpty then
    { price := 0, sma20 := 0, sma50 := 0, sma100 := 0, rsi14 := 50
      above_sma20 := false, above_sma50 := false, above_sma100 := false
      below_sma20 := false, below_sma50 := false, below_sma100 := false
      rsi_label := "N/A" }
  else
    let latest_price := closes.getLastD 0
    let latest_sma20 := (compute_sma_last closes 20).getD 0
    let latest_sma50 := (compute_sma_last closes 50).getD 0
    let latest_sma100 := (compute_sma_last closes 100).getD 0
    let latest_rsi : ℚ :=
      match (compute_rsi closes 14).getLastD .nan with
      | .fin q => q
      | _ => 50
    let rsi_label :=
      if 70 ≤ latest_rsi then "Overbought"
      else if latest_rsi ≤ 30 then "Oversold"
      else if 40 ≤ latest_rsi ∧ latest_rsi ≤ 60 then "Neutral"
      else if 60 < latest_rsi then "Bullish"
      else "Bearish"
    { price := round2 latest_price
      sma20 := round2 latest_sma20
      sma50 := round2 latest_sma50
      sma100 := round2 latest_sma100
      rsi14 := round2 latest_rsi
      above_sma20 := decide (latest_sma20 < latest_price)
      above_sma50 := decide (latest_sma50 < latest_price)
      above_sma100 := decide (latest_sma100 < latest_price)
      below_sma20 := decide (latest_price < latest_sma20)
      below_sma50 := decide (latest_price < latest_sma50)
      below_sma100 := decide (latest_price < latest_sma100)
      rsi_label := rsi_label }

/-- Result of the index or VIX classifier: a color and a rationale. -/
structure IndexLight where
  color : Color
  label : String
deriving DecidableEq

/-- traffic_lights.index_traffic_light: strategy-dependent classification
of an index technical snapshot. -/
def index_traffic_light (t : Technicals) (strategy : Strategy) (cfg : Config) : IndexLight :=
  match strategy with
  | .short_calls =>
    let downtrend_or_weakening :=
      (!t.above_sma20 && !t.above_sma50)
        || (decide (t.sma20 < t.sma50) && decide (0 < t.sma20) && decide (0 < t.sma50))
    if downtrend_or_weakening && decide (cfg.neutral_high ≤ t.rsi14) then
      ⟨.green, "Favorable for Short Calls – weakening trend + overbought"⟩
    else if t.above_sma20 && t.above_sma50 && t.above_sma100
        && decide (t.rsi14 < cfg.neutral_high) then
      ⟨.red, "Avoid Short Calls – strong uptrend still building"⟩
    else
      ⟨.yellow, "Mixed signals for Short Calls – proceed with caution"⟩
  | .cash_secured_puts =>
    if t.above_sma20 && t.above_sma50 && t.above_sma100
        && decide (t.rsi14 ≤ cfg.neutral_low) then
      ⟨.green, "Favorable for CSP – uptrend with pullback"⟩
    else if (!t.above_sma50 && !t.above_sma100) && decide (t.rsi14 < cfg.neutral_low) then
      ⟨.red, "Avoid CSP – falling knife risk"⟩
    else
      ⟨.yellow, "Mixed signals for CSP – proceed with caution"⟩

/-- The math-library functions the Black-Scholes formulas call.  Their
numeric values are irrelevant to the error-handling claim, so they are a
parameter of the embedding: any instantiation models one float math
library. -/
structure RealFns where
  log : ℚ → ℚ
  sqrt : ℚ → ℚ
  exp : ℚ → ℚ
  pdf : ℚ → ℚ
  cdf : ℚ → ℚ

/-- The Python exceptions the `try` block of greeks.compute_greeks
catches: ValueError from a domain violation, ZeroDivisionError from float
division by zero.  (OverflowError has no rational counterpart: exact
rationals never overflow.) -/
inductive DomainErr where
  | log_domain
  | sqrt_domain
  | div_zero
deriving DecidableEq

/-- `math.log`, raising on a non-positive argument. -/
def safe_log (F : RealFns) (x : ℚ) : Except DomainErr ℚ :=
  if x ≤ 0 then .error .log_domain else .ok (F.log x)

/-- `math.sqrt`, raising on a negative argument. -/
def safe_sqrt (F : RealFns) (x : ℚ) : Except DomainErr ℚ :=
  if x < 0 then .error .sqrt_domain else .ok (F.sqrt x)

/-- Float division, raising on a zero divisor. -/
def safe_div (a b : ℚ) : Except DomainErr ℚ :=
  if b = 0 then .error .div_zero else .ok (a / b)

/-- The four Greeks of one contract. -/
structure Greeks where
  delta : ℚ
  gamma : ℚ
  theta : ℚ
  vega : ℚ
deriving DecidableEq

/-- The `try` block of greeks.compute_greeks: `_d1`, `_d2` and the four
Greek formulas, with every operation that can raise routed through the
safe wrappers. -/
def greeks_body (F : RealFns) (S K T r sigma : ℚ) (option_type : OptType) :
    Except DomainErr Greeks := do
  let ratio ← safe_div S K
  let lnSK ← safe_log F ratio
  let sqrt_T ← safe_sqrt F T
  let d1 ← safe_div (lnSK + (r + sigma ^ 2 / 2) * T) (sigma * sqrt_T)
  let d2 := d1 - sigma * sqrt_T
  let gamma ← safe_div (F.pdf d1) (S * sigma * sqrt_T)
  let vega := S * F.pdf d1 * sqrt_T / 100
  let core ← safe_div (S * F.pdf d1 * sigma) (2 * sqrt_T)
  let dt : ℚ × ℚ :=
    match option_type with
    | .call => (F.cdf d1, (-core - r * K * F.exp (-(r * T)) * F.cdf d2) / 365)
    | .put => (F.cdf d1 - 1, (-core + r * K * F.exp (-(r * T)) * F.cdf (-d2)) / 365)
  pure { delta := round4 dt.1, gamma := round6 gamma, theta := round4 dt.2, vega := round4 vega }

/-- greeks.compute_greeks: the all-None sentinel is `none`; the input
guard returns it directly, and any exception of the body is caught and
converted to it. -/
def compute_greeks (F : RealFns) (S K T r sigma : ℚ) (option_type : OptType) :
    Option Greeks :=
  if T ≤ 0 ∨ sigma ≤ 0 ∨ S ≤ 0 ∨ K ≤ 0 then none
  else
    match greeks_body F S K T r sigma option_type with
    | .ok g => some g
    | .error _ => none

/-- A boundary technical snapshot used as a test input: the latest price
sits exactly on SMA20 and SMA50, so every above-SMA and below-SMA flag is
False, and RSI sits exactly on the default neutral-high threshold. -/
def boundary_snapshot : Technicals :=
  { price := 100, sma20 := 100, sma50 := 100, sma100 := 0, rsi14 := 60
    above_sma20 := false, above_sma50 := false, above_sma100 := false
    below_sma20 := false, below_sma50 := false, below_sma100 := false
    rsi_label := "Neutral" }

/-! ## Shared helper lemmas -/

/-- Last element of a map over `List.range`. -/
theorem getLastD_map_range {α : Type} (f : ℕ → α) (n : ℕ) (d : α) (h : n ≠ 0) :
    ((List.range n).map f).getLastD d = f (n - 1) := by
  cases n with
  | zero => exact absurd rfl h
  | succ m => rw [List.range_succ, List.map_append]; simp

/-- In-range element of a map over `List.range`. -/
theorem getD_map_range {α : Type} (f : ℕ → α) (n i : ℕ) (d : α) (h : i < n) :
    ((List.range n).map f).getD i d = f i := by
  rw [List.getD, List.get?_eq_getElem?, List.getElem?_map, List.getElem?_range h]
  rfl

/-- The last RSI entry, once at least `period` observations exist, is the
float expression over the final Wilder averages. -/
theorem compute_rsi_last (prices : List ℚ) (period : ℕ)
    (hlen : period ≤ prices.length) (hne : prices ≠ []) :
    (compute_rsi prices period).getLastD .nan =
      esub (.fin 100) (ediv (.fin 100) (eadd (.fin 1)
        (ediv (.fin (wilder_avg_gain prices period))
          (.fin (wilder_avg_loss prices period))))) := by
  have hn : prices.length ≠ 0 := by simpa using hne
  rw [compute_rsi, getLastD_map_range _ _ _ hn]
  rw [if_neg (by omega)]
  rfl

/-! ## C3: annualized_return -/

/-- C3: for all positive premium, underlying price and dte,
`annualized_return` is the rounded formula
`round((premium/price) * (365/dte) * 100, 2)`; for any non-positive input
it is exactly 0; and the spec instance premium=1.20, price=24.00, dte=7
yields 260.71. -/
theorem c3_annualized_return_spec (premium underlying_price dte : ℚ) :
    (0 < premium → 0 < underlying_price → 0 < dte →
      annualized_return premium underlying_price dte =
        round2 (premium / underlying_price * (365 / dte) * 100))
    ∧ ((premium ≤ 0 ∨ underlying_price ≤ 0 ∨ dte ≤ 0) →
      annualized_return premium underlying_price dte = 0)
    ∧ annualized_return (6/5) 24 7 = 26071/100 := by
  refine ⟨?_, ?_, ?_⟩
  · intro hp hu hd
    rw [annualized_return, if_neg]
    push_neg
    exact ⟨hu, hd, hp⟩
  · intro h
    rw [annualized_return, if_pos (by tauto)]
  · norm_num [annualized_return, round2, round_to, rhe]

/-! ## C4: compute_greeks error handling -/

/-- C4: `compute_greeks` returns the all-None sentinel on every input
failing the positivity guard, and converts every exception the
Black-Scholes body raises into the same sentinel instead of propagating
it (totality of the Lean function is totality of the embedding). -/
theorem c4_compute_greeks_sentinel (F : RealFns) (S K T r sigma : ℚ) (option_type : OptType) :
    ((T ≤ 0 ∨ sigma ≤ 0 ∨ S ≤ 0 ∨ K ≤ 0) →
      compute_greeks F S K T r sigma option_type = none)
    ∧ (∀ e, greeks_body F S K T r sigma option_type = .error e →
      compute_greeks F S K T r sigma option_type = none) := by
  constructor
  · intro h
    rw [compute_greeks, if_pos h]
  · intro e he
    rw [compute_greeks]
    split_ifs
    · rfl
    · rw [he]

/-! ## C6: enrich_chain idempotence -/

/-- Re-enriching one row changes nothing: every recomputed column reads
only base columns, which `enrich` preserves. -/
theorem enrich_enrich (cfg : Config) (u : ℚ) (r : OptRow) :
    enrich cfg u (enrich cfg u r) = enrich cfg u r := rfl

/-- C6: `enrich_chain` is idempotent for every chain, underlying price
and configuration snapshot. -/
theorem c6_enrich_chain_idempotent (chain : List OptRow) (underlying_price : ℚ) (cfg : Config) :
    enrich_chain (enrich_chain chain underlying_price cfg) underlying_price cfg =
      enrich_chain chain underlying_price cfg := by
  cases chain with
  | nil => rfl
  | cons a l =>
    simp only [enrich_chain, List.isEmpty_cons, Bool.false_eq_true, if_false,
      List.map_cons, List.isEmpty_nil, List.map_map]
    simp [Function.comp_def, enrich_enrich]

/-! ## C10: liquidity_ok and liquidity_marginal exclusive -/

/-- C10: after enrichment, no row is both liquidity_ok and
liquidity_marginal, for any configuration thresholds. -/
theorem c10_liquidity_flags_exclusive (chain : List OptRow) (underlying_price : ℚ)
    (cfg : Config) :
    ∀ r ∈ enrich_chain chain underlying_price cfg,
      ¬(r.liquidity_ok = true ∧ r.liquidity_marginal = true) := by
  intro r hr
  rw [enrich_chain] at hr
  split_ifs at hr with hemp
  · rw [List.isEmpty_iff.mp hemp] at hr
    simp at hr
  · rcases List.mem_map.mp hr with ⟨r0, _, rfl⟩
    simp only [enrich, Bool.and_eq_true, Bool.or_eq_true, decide_eq_true_eq]
    rintro ⟨⟨hoi, hvol⟩, hmarg | hmarg⟩
    · exact absurd hoi (not_le.mpr hmarg.1)
    · exact absurd hvol (not_le.mpr hmarg.1)

/-- Witness for C10 at a concrete chain, row and configuration. -/
theorem c10_liquidity_flags_exclusive_witness :
    ¬((enrich {} 10 { type := OptType.call }).liquidity_ok = true
      ∧ (enrich {} 10 { type := OptType.call }).liquidity_marginal = true) :=
  c10_liquidity_flags_exclusive [{ type := OptType.call }] 10 {}
    (enrich {} 10 { type := OptType.call }) (by simp [enrich_chain])

/-! ## C1: option_traffic_light priority cascade -/

/-- C1: `option_traffic_light` is an ordered priority cascade, first match
wins: a false return_ok gives red with the return reason (never yellow or
green, whatever the other inputs); then a false delta_ok gives red with
the delta reason; then open interest below the marginal floor or zero
volume gives red with the very-low-liquidity reason; then VIX red
together with index red gives red; then return_ok, delta_ok, liquidity_ok
with neither VIX nor index red gives green; anything else gives yellow. -/
theorem c1_option_traffic_light_cascade (row : OptRow) (vix_color index_color : Color)
    (cfg : Config) :
    (row.return_ok = false →
      option_traffic_light row vix_color index_color cfg = ⟨.red, .return_below_target⟩)
    ∧ (row.return_ok = true → row.delta_ok = false →
      option_traffic_light row vix_color index_color cfg = ⟨.red, .delta_outside_band⟩)
    ∧ (row.return_ok = true → row.delta_ok = true →
      (row.openInterest < cfg.marginal_oi ∨ row.volume = 0) →
      option_traffic_light row vix_color index_color cfg = ⟨.red, .very_low_liquidity⟩)
    ∧ (row.return_ok = true → row.delta_ok = true →
      ¬(row.openInterest < cfg.marginal_oi ∨ row.volume = 0) →
      vix_color = .red → index_color = .red →
      option_traffic_light row vix_color index_color cfg = ⟨.red, .high_risk_env⟩)
    ∧ (row.return_ok = true → row.delta_ok = true → row.liquidity_ok = true →
      ¬(row.openInterest < cfg.marginal_oi ∨ row.volume = 0) →
      vix_color ≠ .red → index_color ≠ .red →
      (option_traffic_light row vix_color index_color cfg).color = .green)
    ∧ (row.return_ok = true → row.delta_ok = true →
      ¬(row.openInterest < cfg.marginal_oi ∨ row.volume = 0) →
      ¬(vix_color = .red ∧ index_color = .red) →
      ¬(row.liquidity_ok = true ∧ vix_color ≠ .red ∧ index_color ≠ .red) →
      (option_traffic_light row vix_color index_color cfg).color = .yellow) := by
  refine ⟨?_, ?_, ?_, ?_, ?_, ?_⟩
  · intro h1
    rw [option_traffic_light, if_pos h1]
  · intro h1 h2
    rw [option_traffic_light, if_neg (by simp [h1]), if_pos h2]
  · intro h1 h2 h3
    rw [option_traffic_light, if_neg (by simp [h1]), if_neg (by simp [h2]), if_pos h3]
  · intro h1 h2 h3 hv hi
    rw [option_traffic_light, if_neg (by simp [h1]), if_neg (by simp [h2]), if_neg h3,
      if_pos ⟨hv, hi⟩]
  · intro h1 h2 hl h3 hv hi
    have hio : index_color = .green ∨ index_color = .yellow := by
      cases index_color <;> simp_all
    rw [option_traffic_light, if_neg (by simp [h1]), if_neg (by simp [h2]), if_neg h3,
      if_neg (by tauto), if_pos ⟨h1, h2, hl, hv, hio⟩]
  · intro h1 h2 h3 hvi hg
    have hng : ¬(row.return_ok = true ∧ row.delta_ok = true ∧ row.liquidity_ok = true
        ∧ vix_color ≠ .red ∧ (index_color = .green ∨ index_color = .yellow)) := by
      rintro ⟨-, -, hl, hv, hio⟩
      exact hg ⟨hl, hv, by cases index_color <;> simp_all⟩
    rw [option_traffic_light, if_neg (by simp [h1]), if_neg (by simp [h2]), if_neg h3,
      if_neg hvi, if_neg hng]

/-! ## C2: undefined SMAs on short histories -/

/-- C2 (amended): on a non-empty history shorter than an SMA window the
stored SMA is 0 and the below-SMA flag equals `price < 0` (so False for
positive prices), but the above-SMA flag is computed as `price > 0` (so
True for positive prices), because the source compares the latest price
against the 0 placeholder. -/
theorem c2_short_history_sma (closes : List ℚ) (h : closes ≠ []) :
    (closes.length < 20 →
      (get_index_technicals closes).sma20 = 0
      ∧ (get_index_technicals closes).above_sma20 = decide (0 < closes.getLastD 0)
      ∧ (get_index_technicals closes).below_sma20 = decide (closes.getLastD 0 < 0))
    ∧ (closes.length < 50 →
      (get_index_technicals closes).sma50 = 0
      ∧ (get_index_technicals closes).above_sma50 = decide (0 < closes.getLastD 0)
      ∧ (get_index_technicals closes).below_sma50 = decide (closes.getLastD 0 < 0))
    ∧ (closes.length < 100 →
      (get_index_technicals closes).sma100 = 0
      ∧ (get_index_technicals closes).above_sma100 = decide (0 < closes.getLastD 0)
      ∧ (get_index_technicals closes).below_sma100 = decide (closes.getLastD 0 < 0)) := by
  have hne : ¬(closes.isEmpty = true) := by simp [h]
  have hshort : ∀ w : ℕ, closes.length < w → compute_sma_last closes w = none := by
    intro w hw
    rw [compute_sma_last, if_neg (by omega)]
  refine ⟨fun hlen => ?_, fun hlen => ?_, fun hlen => ?_⟩ <;>
    rw [get_index_technicals, if_neg hne, hshort _ hlen] <;>
    exact ⟨by norm_num [round2, round_to, rhe], rfl, rfl⟩

/-- C2 counterexample: the claim asserts all flags False on a short
history, but on the one-day history [10] the above-SMA20 flag is True
(the latest price 10 is compared against the 0 placeholder). -/
theorem c2_counterexample :
    ¬((get_index_technicals [10]).sma20 = 0
      ∧ (get_index_technicals [10]).above_sma20 = false
      ∧ (get_index_technicals [10]).below_sma20 = false) := by
  have habove : (get_index_technicals [10]).above_sma20 = true := by
    norm_num [get_index_technicals, compute_sma_last, List.getLastD]
  simp [habove]

/-- Witness for C2 at the concrete one-day history [10]. -/
theorem c2_short_history_sma_witness :
    (get_index_technicals [10]).sma20 = 0
    ∧ (get_index_technicals [10]).above_sma20 = decide (0 < ([10] : List ℚ).getLastD 0)
    ∧ (get_index_technicals [10]).below_sma20 = decide (([10] : List ℚ).getLastD 0 < 0) :=
  (c2_short_history_sma [10] (by simp)).1 (by norm_num)

/-! ## C5: RSI saturation -/

/-- C5 (amended): with at least period+1 observations, `compute_rsi` is
total (no division error) and its latest value is: exactly 100 when the
final Wilder average loss is 0 and the average gain is positive
(strictly increasing somewhere, never decreasing); NaN when both
averages are 0 (a constant series, also non-decreasing); and exactly 0
when the average gain is 0 and the average loss is positive. -/
theorem c5_rsi_saturation (prices : List ℚ) (period : ℕ)
    (hlen : period + 1 ≤ prices.length) :
    (wilder_avg_loss prices period = 0 → 0 < wilder_avg_gain prices period →
      (compute_rsi prices period).getLastD .nan = .fin 100)
    ∧ (wilder_avg_loss prices period = 0 → wilder_avg_gain prices period = 0 →
      (compute_rsi prices period).getLastD .nan = .nan)
    ∧ (wilder_avg_gain prices period = 0 → 0 < wilder_avg_loss prices period →
      (compute_rsi prices period).getLastD .nan = .fin 0) := by
  have hne : prices ≠ [] := by
    intro hcon
    rw [hcon] at hlen
    simp at hlen
  have hlast := compute_rsi_last prices period (by omega) hne
  refine ⟨fun hl hg => ?_, fun hl hg => ?_, fun hg hl => ?_⟩
  · rw [hlast, hl]
    norm_num [ediv, eadd, esub, hg]
  · rw [hlast, hl, hg]
    norm_num [ediv, eadd, esub]
  · rw [hlast, hg]
    norm_num [ediv, eadd, esub, hl.ne']

/-- C5 counterexample: a constant series is monotonically non-decreasing
and its final Wilder average loss is 0, yet the latest RSI is NaN, not
the claimed saturation at 100 (pandas computes 0/0 as NaN). -/
theorem c5_counterexample :
    wilder_avg_loss [5, 5, 5, 5, 5, 5, 5, 5, 5, 5, 5, 5, 5, 5, 5] 14 = 0
    ∧ ([5, 5, 5, 5, 5, 5, 5, 5, 5, 5, 5, 5, 5, 5, 5] : List ℚ).length = 14 + 1
    ∧ (compute_rsi [5, 5, 5, 5, 5, 5, 5, 5, 5, 5, 5, 5, 5, 5, 5] 14).getLastD .nan
        ≠ .fin 100 := by
  refine ⟨?_, by norm_num, ?_⟩
  · norm_num [wilder_avg_loss, price_losses, ewm_vals, List.scanl, List.zipWith, List.getD]
  · rw [compute_rsi_last _ _ (by norm_num) (by simp)]
    norm_num [wilder_avg_gain, wilder_avg_loss, price_gains, price_losses, ewm_vals,
      List.scanl, List.zipWith, List.getD, ediv, eadd, esub]
    simp

/-- Witness for C5 on a strictly increasing 15-day series: average loss
0, average gain positive, latest RSI exactly 100. -/
theorem c5_rsi_saturation_witness :
    (compute_rsi [1, 2, 3, 4, 5, 6, 7, 8, 9, 10, 11, 12, 13, 14, 15] 14).getLastD .nan
      = .fin 100 :=
  (c5_rsi_saturation [1, 2, 3, 4, 5, 6, 7, 8, 9, 10, 11, 12, 13, 14, 15] 14 (by norm_num)).1
    (by norm_num [wilder_avg_loss, price_losses, ewm_vals, List.scanl, List.zipWith,
      List.getD])
    (by norm_num [wilder_avg_gain, price_gains, ewm_vals, List.scanl, List.zipWith,
      List.getD])

/-! ## C9: index_traffic_light for short_calls -/

/-- C9 (amended): under short_calls the classifier is green exactly when
the price is not above SMA20 and not above SMA50 (the source negates the
above-SMA flags, so a price equal to the SMA also counts), or SMA20 is
below SMA50 with both positive, and RSI is at least the neutral-high
threshold; red exactly when the price is above SMA20, SMA50 and SMA100
and RSI is below the threshold; yellow in every other case; and every
branch carries a non-empty rationale string. -/
theorem c9_index_short_calls (t : Technicals) (cfg : Config) :
    ((index_traffic_light t .short_calls cfg).color = .green ↔
      (((t.above_sma20 = false ∧ t.above_sma50 = false)
          ∨ (t.sma20 < t.sma50 ∧ 0 < t.sma20 ∧ 0 < t.sma50))
        ∧ cfg.neutral_high ≤ t.rsi14))
    ∧ ((index_traffic_light t .short_calls cfg).color = .red ↔
      (t.above_sma20 = true ∧ t.above_sma50 = true ∧ t.above_sma100 = true
        ∧ t.rsi14 < cfg.neutral_high))
    ∧ ((index_traffic_light t .short_calls cfg).color = .yellow ↔
      (¬(((t.above_sma20 = false ∧ t.above_sma50 = false)
            ∨ (t.sma20 < t.sma50 ∧ 0 < t.sma20 ∧ 0 < t.sma50))
          ∧ cfg.neutral_high ≤ t.rsi14)
        ∧ ¬(t.above_sma20 = true ∧ t.above_sma50 = true ∧ t.above_sma100 = true
          ∧ t.rsi14 < cfg.neutral_high)))
    ∧ (index_traffic_light t .short_calls cfg).label ≠ "" := by
  have hGiff : (((!t.above_sma20 && !t.above_sma50)
        || (decide (t.sma20 < t.sma50) && decide (0 < t.sma20) && decide (0 < t.sma50)))
        && decide (cfg.neutral_high ≤ t.rsi14)) = true ↔
      (((t.above_sma20 = false ∧ t.above_sma50 = false)
          ∨ (t.sma20 < t.sma50 ∧ 0 < t.sma20 ∧ 0 < t.sma50))
        ∧ cfg.neutral_high ≤ t.rsi14) := by
    simp [Bool.and_eq_true, Bool.or_eq_true, Bool.not_eq_true', decide_eq_true_eq,
      and_assoc]
  have hRiff : (t.above_sma20 && t.above_sma50 && t.above_sma100
        && decide (t.rsi14 < cfg.neutral_high)) = true ↔
      (t.above_sma20 = true ∧ t.above_sma50 = true ∧ t.above_sma100 = true
        ∧ t.rsi14 < cfg.neutral_high) := by
    simp [Bool.and_eq_true, decide_eq_true_eq, and_assoc]
  simp only [index_traffic_light]
  split_ifs with h1 h2
  · rw [hGiff] at h1
    have hnR : ¬(t.above_sma20 = true ∧ t.above_sma50 = true ∧ t.above_sma100 = true
        ∧ t.rsi14 < cfg.neutral_high) :=
      fun hR => absurd hR.2.2.2 (not_lt.mpr h1.2)
    exact ⟨by simp [h1], by simp [hnR], by simp [h1], by simp⟩
  · rw [hRiff] at h2
    rw [hGiff.not] at h1
    exact ⟨by simp [h1], by simp [h2], by simp [h2], by simp⟩
  · rw [hGiff.not] at h1
    rw [hRiff.not] at h2
    exact ⟨by simp [h1], by simp [h2], by simp [h1, h2], by simp⟩

/-- C9 counterexample: a snapshot whose price sits exactly on SMA20 and
SMA50 (all above and below flags False, SMAs equal) with RSI 60 is
classified green by the source, while the claim's green condition —
price strictly below the SMAs, or SMA20 < SMA50 — is false. -/
theorem c9_counterexample :
    ¬((index_traffic_light boundary_snapshot .short_calls {}).color = .green ↔
      (((boundary_snapshot.below_sma20 = true ∧ boundary_snapshot.below_sma50 = true)
          ∨ (boundary_snapshot.sma20 < boundary_snapshot.sma50
            ∧ 0 < boundary_snapshot.sma20 ∧ 0 < boundary_snapshot.sma50))
        ∧ ({} : Config).neutral_high ≤ boundary_snapshot.rsi14)) := by
  norm_num [index_traffic_light, boundary_snapshot]

/-! ## C8: payoff table -/

/-- C8 (amended): for a positive underlying price the payoff table has
exactly `num_points` rows; row i holds the 2-decimal roundings of the
i-th point of the evenly spaced linspace grid over
`[0.70 * S, 1.30 * S]` and of the short P/L formula evaluated at that
unrounded grid point; the underlying grid is strictly ascending and
spans the interval exactly (for at least two points); the breakeven is
`round2(strike + premium)` for a call and `round2(strike - premium)` for
a put; and the spec instance (short call, strike 25, premium 1.00,
underlying 24) has breakeven 26.00, P/L -4.00 at price 30 and 1.00 at
price 20. -/
theorem c8_payoff_table (option_type : OptType) (strike premium underlying_price : ℚ)
    (num_points : ℕ) (hS : 0 < underlying_price) :
    (compute_payoff_table option_type strike premium underlying_price num_points).1.length
        = num_points
    ∧ (∀ i, i < num_points →
        (compute_payoff_table option_type strike premium underlying_price num_points).1.getD
            i (0, 0) =
          (round2 (linspace_point (underlying_price * (7/10)) (underlying_price * (13/10))
              num_points i),
            round2 (short_pnl option_type strike premium
              (linspace_point (underlying_price * (7/10)) (underlying_price * (13/10))
                num_points i))))
    ∧ (2 ≤ num_points →
        (∀ i j, i < j → j < num_points →
          linspace_point (underlying_price * (7/10)) (underlying_price * (13/10))
              num_points i <
            linspace_point (underlying_price * (7/10)) (underlying_price * (13/10))
              num_points j)
        ∧ linspace_point (underlying_price * (7/10)) (underlying_price * (13/10))
            num_points 0 = underlying_price * (7/10)
        ∧ linspace_point (underlying_price * (7/10)) (underlying_price * (13/10))
            num_points (num_points - 1) = underlying_price * (13/10))
    ∧ (compute_payoff_table option_type strike premium underlying_price num_points).2 =
        round2 (match option_type with
          | .call => strike + premium
          | .put => strike - premium)
    ∧ (compute_payoff_table .call 25 1 24 50).2 = 26
    ∧ short_pnl .call 25 1 30 = -4
    ∧ short_pnl .call 25 1 20 = 1 := by
  refine ⟨?_, ?_, ?_, ?_, ?_, ?_, ?_⟩
  · simp [compute_payoff_table]
  · intro i hi
    simp only [compute_payoff_table, List.map_map]
    rw [getD_map_range _ _ _ _ hi]
    rfl
  · intro hn
    have hden : (0 : ℚ) < (num_points : ℚ) - 1 := by
      have : (2 : ℚ) ≤ (num_points : ℚ) := by exact_mod_cast hn
      linarith
    have hgap : (0 : ℚ) < underlying_price * (13/10) - underlying_price * (7/10) := by
      linarith
    refine ⟨?_, ?_, ?_⟩
    · intro i j hij hj
      simp only [linspace_point]
      rw [mul_div_assoc, mul_div_assoc]
      have hc : ((i : ℚ)) < (j : ℚ) := by exact_mod_cast hij
      exact add_lt_add_left (mul_lt_mul_of_pos_right hc (div_pos hgap hden)) _
    · simp [linspace_point]
    · have h1 : 1 ≤ num_points := by omega
      simp only [linspace_point]
      rw [Nat.cast_sub h1, Nat.cast_one]
      field_simp
      ring
  · cases option_type <;> rfl
  · norm_num [compute_payoff_table, round2, round_to, rhe]
  · norm_num [short_pnl]
  · norm_num [short_pnl]

/-- C8 counterexample: the claim says the rows' underlying prices are
evenly spaced, but the stored prices are rounded to 2 decimals: for a
short call with strike 1, premium 1, underlying 1 and 8 points the first
three stored prices are 0.70, 0.79, 0.87 — consecutive gaps 0.09 and
0.08. -/
theorem c8_counterexample :
    ((compute_payoff_table .call 1 1 1 8).1.getD 1 (0, 0)).1
        - ((compute_payoff_table .call 1 1 1 8).1.getD 0 (0, 0)).1 ≠
      ((compute_payoff_table .call 1 1 1 8).1.getD 2 (0, 0)).1
        - ((compute_payoff_table .call 1 1 1 8).1.getD 1 (0, 0)).1 := by
  have key : ∀ i : ℕ, i < 8 → (compute_payoff_table .call 1 1 1 8).1.getD i (0, 0) =
      (round2 (linspace_point ((1 : ℚ) * (7/10)) ((1 : ℚ) * (13/10)) 8 i),
        round2 (short_pnl .call 1 1
          (linspace_point ((1 : ℚ) * (7/10)) ((1 : ℚ) * (13/10)) 8 i))) := by
    intro i hi
    simp only [compute_payoff_table, List.map_map]
    rw [getD_map_range _ _ _ _ hi]
    rfl
  rw [key 0 (by norm_num), key 1 (by norm_num), key 2 (by norm_num)]
  norm_num [linspace_point, round2, round_to, rhe, Int.fract]

/-- Witness for C8 at the spec instance (short call, strike 25, premium
1.00, underlying 24, 50 points). -/
theorem c8_payoff_table_witness :
    (compute_payoff_table .call 25 1 24 50).1.length = 50
    ∧ (compute_payoff_table .call 25 1 24 50).2 = 26 :=
  ⟨(c8_payoff_table .call 25 1 24 50 (by norm_num)).1,
    (c8_payoff_table .call 25 1 24 50 (by norm_num)).2.2.2.2.1⟩

/-! ## C7: etf_status_summary -/

/-- The row loop of the summary adds the green-call, green-put and
yellow counts of the scanned rows to the running counters. -/
theorem tl_step_foldl (vix_color idx_color : Color) (cfg : Config)
    (rows : List OptRow) (c : ℕ × ℕ × ℕ) :
    rows.foldl (tl_step vix_color idx_color cfg) c =
      (c.1 + rows.countP (fun r =>
          decide ((option_traffic_light r vix_color idx_color cfg).color = .green
            ∧ r.type = .call)),
        c.2.1 + rows.countP (fun r =>
          decide ((option_traffic_light r vix_color idx_color cfg).color = .green
            ∧ r.type = .put)),
        c.2.2 + rows.countP (fun r =>
          decide ((option_traffic_light r vix_color idx_color cfg).color = .yellow))) := by
  induction rows generalizing c with
  | nil => simp
  | cons a l ih =>
    rw [List.foldl_cons, ih]
    simp only [List.countP_cons, decide_eq_true_eq, tl_step]
    rcases hc : (option_traffic_light a vix_color idx_color cfg).color with _ | _ | _ <;>
      rcases ht : a.type with _ | _ <;>
      simp [hc, ht] <;> omega

/-- The expiration loop of the summary (which skips empty chains) adds
the counts over the concatenation of all chains. -/
theorem chains_foldl (vix_color idx_color : Color) (cfg : Config)
    (ecs : List (String × List OptRow)) (c : ℕ × ℕ × ℕ) :
    ecs.foldl
        (fun c ec => if ec.2.isEmpty then c
          else ec.2.foldl (tl_step vix_color idx_color cfg) c) c =
      (c.1 + ((ecs.map Prod.snd).flatten.countP (fun r =>
          decide ((option_traffic_light r vix_color idx_color cfg).color = .green
            ∧ r.type = .call))),
        c.2.1 + ((ecs.map Prod.snd).flatten.countP (fun r =>
          decide ((option_traffic_light r vix_color idx_color cfg).color = .green
            ∧ r.type = .put))),
        c.2.2 + ((ecs.map Prod.snd).flatten.countP (fun r =>
          decide ((option_traffic_light r vix_color idx_color cfg).color = .yellow)))) := by
  induction ecs generalizing c with
  | nil => simp
  | cons e l ih =>
    rw [List.foldl_cons]
    by_cases he : e.2.isEmpty
    · rw [if_pos he, ih]
      have h2 : e.2 = [] := List.isEmpty_iff.mp he
      simp [h2]
    · rw [if_neg he, tl_step_foldl, ih]
      simp [List.countP_append]
      omega

/-- C7: `etf_status_summary` reports one line per configured ETF; each
line counts the green calls and green puts over every row of every
tracked expiration chain of that ETF (classified by
`option_traffic_light` with the applicable index color, empty or absent
chains contributing nothing), its status is green exactly when at least
one contract is green, yellow exactly when none is green and at least
one is yellow, red otherwise; and if the ETF has no rows at all the line
is red with all counts 0. -/
theorem c7_etf_status_summary (chains : List (String × List (String × List OptRow)))
    (underlying_prices : List (String × ℚ)) (vix_color sp_color ndx_color : Color)
    (strategy : Strategy) (cfg : Config) :
    (etf_status_summary chains underlying_prices vix_color sp_color ndx_color
        strategy cfg).length = cfg.etfs.length
    ∧ (∀ s ∈ etf_status_summary chains underlying_prices vix_color sp_color ndx_color
        strategy cfg,
      s.green_calls = ((lookupD chains s.symbol []).map Prod.snd).flatten.countP (fun r =>
          decide ((option_traffic_light r vix_color
              (if s.symbol = "SQQQ" then ndx_color else sp_color) cfg).color = .green
            ∧ r.type = .call))
      ∧ s.green_puts = ((lookupD chains s.symbol []).map Prod.snd).flatten.countP (fun r =>
          decide ((option_traffic_light r vix_color
              (if s.symbol = "SQQQ" then ndx_color else sp_color) cfg).color = .green
            ∧ r.type = .put))
      ∧ s.total_green = s.green_calls + s.green_puts
      ∧ (s.status_color = .green ↔ 1 ≤ s.total_green)
      ∧ (s.status_color = .yellow ↔ s.total_green = 0
          ∧ 0 < ((lookupD chains s.symbol []).map Prod.snd).flatten.countP (fun r =>
              decide ((option_traffic_light r vix_color
                  (if s.symbol = "SQQQ" then ndx_color else sp_color) cfg).color
                = .yellow)))
      ∧ (s.status_color = .red ↔ s.total_green = 0
          ∧ ((lookupD chains s.symbol []).map Prod.snd).flatten.countP (fun r =>
              decide ((option_traffic_light r vix_color
                  (if s.symbol = "SQQQ" then ndx_color else sp_color) cfg).color
                = .yellow)) = 0)
      ∧ (((lookupD chains s.symbol []).map Prod.snd).flatten = [] →
          s.status_color = .red ∧ s.green_calls = 0 ∧ s.green_puts = 0
            ∧ s.total_green = 0)) := by
  constructor
  · simp [etf_status_summary]
  · intro s hs
    rcases List.mem_map.mp hs with ⟨etf, _, rfl⟩
    simp only [etf_status_summary, chains_foldl, Nat.zero_add]
    refine ⟨by trivial, by trivial, by trivial, ?_, ?_, ?_, ?_⟩
    · split_ifs with h1 h2 <;> simp_all
    · split_ifs with h1 h2 <;> simp_all <;> omega
    · split_ifs with h1 h2 <;> simp_all <;> omega
    · intro hrows
      rw [hrows]
      simp

end InvEtf
